import Mathlib

/-!
Shallow embedding of the boring-business-finder repository.

Python floats are modelled as rationals, Python ints as integers, optional
values as `Option`, timestamps as ISO strings threaded explicitly (the clock
reading is a parameter wherever the source calls `datetime.now()`).
-/

/-! ## Data model (src/utils/models.py) -/

/-- `Review` dataclass from src/utils/models.py. -/
structure Review where
  rating : ℤ
  text : String
  date : Option String := none
  author : Option String := none
deriving DecidableEq

/-- `Review.is_negative` property: `rating <= 2`. -/
def Review.isNegative (r : Review) : Bool := r.rating ≤ 2

/-- `Business` dataclass from src/utils/models.py. -/
structure Business where
  name : String
  place_id : String
  category : String
  address : String
  city : String
  state : String
  zip_code : Option String := none
  latitude : Option ℚ := none
  longitude : Option ℚ := none
  phone : Option String := none
  website : Option String := none
  rating : Option ℚ := none
  review_count : ℤ := 0
  reviews : List Review := []
  scraped_at : String := ""
deriving DecidableEq

/-- `Business.negative_reviews` property. -/
def Business.negativeReviews (b : Business) : List Review :=
  b.reviews.filter (fun r => r.isNegative)

/-- `OpportunityScore` dataclass from src/utils/models.py. -/
structure OpportunityScore where
  category : String
  location : String
  total_businesses : ℤ := 0
  total_reviews : ℤ := 0
  avg_reviews_per_business : ℚ := 0
  avg_rating : ℚ := 0
  low_rated_businesses : ℤ := 0
  businesses_without_website : ℤ := 0
  reviews_last_30_days : ℤ := 0
  review_velocity : ℚ := 0
  common_complaints : List String := []
  complaint_themes : List String := []
  opportunity_score : ℤ := 0
deriving DecidableEq

/-! `OpportunityScore.calculate_score` is the sum of four `score +=` blocks;
each block is embedded as one function below and `calculateScore` adds them. -/

/-- Market-size block of `calculate_score` (total review count). -/
def marketSizePoints (total_reviews : ℤ) : ℤ :=
  if total_reviews > 1000 then 25
  else if total_reviews > 500 then 20
  else if total_reviews > 100 then 15
  else if total_reviews > 50 then 10
  else 5

/-- Competition-gap block of `calculate_score` (business count). -/
def competitionPoints (total_businesses : ℤ) : ℤ :=
  if total_businesses < 10 then 25
  else if total_businesses < 20 then 20
  else if total_businesses < 50 then 15
  else 5

/-- Quality-gap block of `calculate_score` (average rating). -/
def qualityPoints (avg_rating : ℚ) : ℤ :=
  if avg_rating < 3.5 then 25
  else if avg_rating < 4.0 then 20
  else if avg_rating < 4.3 then 15
  else 5

/-- Digital-gap block of `calculate_score`:
`website_gap_ratio = businesses_without_website / max(total_businesses, 1)`. -/
def digitalPoints (businesses_without_website total_businesses : ℤ) : ℤ :=
  let website_gap_ratio : ℚ :=
    (businesses_without_website : ℚ) / ((max total_businesses 1 : ℤ) : ℚ)
  if website_gap_ratio > 0.5 then 25
  else if website_gap_ratio > 0.3 then 20
  else if website_gap_ratio > 0.1 then 15
  else 5

/-- `OpportunityScore.calculate_score`: the four blocks summed. -/
def calculateScore (s : OpportunityScore) : ℤ :=
  marketSizePoints s.total_reviews
    + competitionPoints s.total_businesses
    + qualityPoints s.avg_rating
    + digitalPoints s.businesses_without_website s.total_businesses

/-! ## String helpers shared by several components

The Python string primitives are re-implemented structurally over character
lists (Lean's own `String.splitOn`/`split`/`trim` are defined by
well-founded recursion on byte positions and do not reduce inside proofs). -/

/-- Remove `pre` from the front of `s`, if it is a prefix. -/
def stripPrefixChars : List Char → List Char → Option (List Char)
  | [], s => some s
  | _ :: _, [] => none
  | p :: ps, c :: cs => if p = c then stripPrefixChars ps cs else none

/-- Python `s.split(sep)` for a non-empty separator, over characters. Each
step consumes at least one character, so `fuel = length + 1` is enough and
the fuel-exhausted branch is unreachable. -/
def splitOnAuxChars (sep : List Char) : ℕ → List Char → List Char →
    List (List Char)
  | 0, s, acc => [acc.reverse ++ s]
  | _ + 1, [], acc => [acc.reverse]
  | fuel + 1, c :: cs, acc =>
    match stripPrefixChars sep (c :: cs) with
    | some rest => acc.reverse :: splitOnAuxChars sep fuel rest []
    | none => splitOnAuxChars sep fuel cs (c :: acc)

/-- Python `s.split(sep)` for a non-empty separator string. -/
def pySplitOn (s sep : String) : List String :=
  (splitOnAuxChars sep.data (s.data.length + 1) s.data []).map
    (fun cs => ⟨cs⟩)

/-- Python `pat in s` substring test, for non-empty `pat` (every pattern the
source tests is a non-empty literal): the split has at least two pieces
exactly when `pat` occurs in `s`. -/
def strContains (s pat : String) : Bool := (pySplitOn s pat).length ≥ 2

/-- Helper for Python `str.split()`: cut at whitespace, dropping empty
pieces. -/
def wordsAux : List Char → List Char → List (List Char)
  | [], acc => if acc.isEmpty then [] else [acc.reverse]
  | c :: cs, acc =>
    if c.isWhitespace then
      if acc.isEmpty then wordsAux cs [] else acc.reverse :: wordsAux cs []
    else wordsAux cs (c :: acc)

/-- Python `str.split()` with no argument: split on whitespace runs,
discarding empty pieces. -/
def pyWords (s : String) : List String :=
  (wordsAux s.data []).map (fun cs => ⟨cs⟩)

/-- Python `str.strip()`: drop whitespace from both ends. -/
def pyStrip (s : String) : String :=
  ⟨((s.data.dropWhile Char.isWhitespace).reverse.dropWhile
      Char.isWhitespace).reverse⟩

/-- Python `str.lower()`. -/
def pyLower (s : String) : String := ⟨s.data.map Char.toLower⟩

/-- Python `str.title()`: an alphabetic character is uppercased when the
previous character is not alphabetic, lowercased otherwise. -/
def pyTitleAux : List Char → Bool → List Char
  | [], _ => []
  | c :: cs, prevAlpha =>
    if c.isAlpha then
      (if prevAlpha then c.toLower else c.toUpper) :: pyTitleAux cs true
    else
      c :: pyTitleAux cs false

/-- Python `str.title()` on a string. -/
def pyTitle (s : String) : String := ⟨pyTitleAux s.data false⟩

/-! ## Scorer (src/analyzer/opportunity_scorer.py) -/

/-- `OpportunityAnalyzer.COMPLAINT_KEYWORDS`. -/
def COMPLAINT_KEYWORDS : List String :=
  ["late", "never showed", "no show", "unprofessional", "rude",
   "expensive", "overpriced", "ripoff", "rip off", "scam",
   "poor quality", "sloppy", "messy", "damaged", "broke",
   "no response", "didn\x27t return", "ignored", "ghosted",
   "took forever", "slow", "delayed", "waited",
   "wouldn\x27t recommend", "avoid", "terrible", "worst",
   "miscommunication", "wrong", "mistake", "error"]

/-- `OpportunityAnalyzer.COMPLAINT_THEMES`, in dict insertion order. -/
def COMPLAINT_THEMES : List (String × List String) :=
  [("reliability", ["late", "never showed", "no show", "didn\x27t show",
                    "took forever", "slow", "delayed", "waited"]),
   ("professionalism", ["unprofessional", "rude", "ignored", "ghosted",
                        "no response", "didn\x27t return"]),
   ("pricing", ["expensive", "overpriced", "ripoff", "rip off", "scam",
                "too much"]),
   ("quality", ["poor quality", "sloppy", "messy", "damaged", "broke",
                "wrong", "mistake"]),
   ("communication", ["miscommunication", "no response", "didn\x27t call",
                      "no update", "couldn\x27t reach"])]

/-- `OpportunityAnalyzer._extract_complaints`: per keyword contained in the
lowered text, record the first `'.'`-separated sentence containing it,
stripped. -/
def extractComplaints (text : String) : List String :=
  COMPLAINT_KEYWORDS.filterMap (fun kw =>
    if strContains (pyLower text) kw then
      ((pySplitOn text ".").find?
        (fun sentence => strContains (pyLower sentence) kw)).map pyStrip
    else none)

/-- Lower-cased word set of a complaint: `set(c.lower().split())`. -/
def wordSet (s : String) : Finset String := (pyWords (pyLower s)).toFinset

/-- Jaccard overlap as computed by `_get_top_complaints`:
`len(c_words & existing_words) / max(len(c_words | existing_words), 1)`. -/
def overlapQ (c existing : String) : ℚ :=
  ((wordSet c ∩ wordSet existing).card : ℚ)
    / ((max (wordSet c ∪ wordSet existing).card 1 : ℕ) : ℚ)

/-- One iteration of the `_get_top_complaints` loop body: keep `c` unless it
overlaps some already-kept complaint by more than 0.5. -/
def dedupStep (unique : List String) (c : String) : List String :=
  if unique.any (fun existing => decide ((1 : ℚ)/2 < overlapQ c existing)) then
    unique
  else
    unique ++ [c]

/-- `OpportunityAnalyzer._get_top_complaints`: greedy first-seen-wins
deduplication followed by `unique[:limit]`. -/
def getTopComplaints (complaints : List String) (limit : ℕ) : List String :=
  (complaints.foldl dedupStep []).take limit

/-- `dedupStep` with the threshold test moved to natural numbers
(`i / max(u,1) > 1/2` iff `max(u,1) < 2*i`); proved equal to `dedupStep`
below and used to evaluate the deduplication on concrete inputs. -/
def dedupStepNat (unique : List String) (c : String) : List String :=
  if unique.any (fun existing =>
      max ((wordSet c ∪ wordSet existing).card) 1 <
        2 * (wordSet c ∩ wordSet existing).card) then
    unique
  else
    unique ++ [c]

/-- Increment a counter key in an insertion-ordered association list,
appending a fresh key at the end (Python `Counter` insertion order). -/
def bumpCount : List (String × ℕ) → String → List (String × ℕ)
  | [], k => [(k, 1)]
  | (k', n) :: rest, k =>
    if k' = k then (k', n + 1) :: rest else (k', n) :: bumpCount rest k

/-- Theme hit counts over all raw complaints, in first-hit insertion order
(`_categorize_complaints` main loop). -/
def themeCounts (complaints : List String) : List (String × ℕ) :=
  complaints.foldl (fun acc complaint =>
    COMPLAINT_THEMES.foldl (fun acc2 tk =>
      if tk.2.any (fun kw => strContains (pyLower complaint) kw) then
        bumpCount acc2 tk.1
      else acc2) acc) []

/-- Stable insertion keeping counts in descending order: an element goes
after every earlier element with a count ≥ its own, matching Python's stable
`Counter.most_common`. -/
def insertByCountDesc (x : String × ℕ) : List (String × ℕ) → List (String × ℕ)
  | [] => [x]
  | y :: ys => if y.2 < x.2 then x :: y :: ys else y :: insertByCountDesc x ys

/-- Stable sort by descending count (`Counter.most_common`). -/
def sortByCountDesc (l : List (String × ℕ)) : List (String × ℕ) :=
  l.foldl (fun acc x => insertByCountDesc x acc) []

/-- `OpportunityAnalyzer._categorize_complaints`: themes ordered by
descending hit count, ties in first-encountered order. -/
def categorizeComplaints (complaints : List String) : List String :=
  (sortByCountDesc (themeCounts complaints)).map Prod.fst

/-- Python truthiness of an optional float rating (`if b.rating`). -/
def ratingTruthy : Option ℚ → Bool
  | none => false
  | some r => r ≠ 0

/-- Python falsiness of an optional website string (`if not b.website`). -/
def websiteFalsy : Option String → Bool
  | none => true
  | some w => w = ""

/-- `OpportunityAnalyzer.analyze`: raises `ValueError` on an empty loaded
list, otherwise builds the `OpportunityScore` and runs `calculate_score`. -/
def analyze (businesses : List Business) (category location : String) :
    Except String OpportunityScore :=
  if businesses.isEmpty then
    .error "No businesses loaded. Call load_data() first."
  else
    let total_businesses : ℤ := businesses.length
    let total_reviews : ℤ := (businesses.map (fun b => b.review_count)).sum
    let ratings : List ℚ :=
      (businesses.filterMap (fun b => b.rating)).filter (fun r => r ≠ 0)
    let avg_rating : ℚ :=
      if ratings.isEmpty then 0
      else ratings.sum / ((max ratings.length 1 : ℕ) : ℚ)
    let all_complaints : List String :=
      businesses.flatMap (fun b =>
        (b.negativeReviews).flatMap (fun r => extractComplaints r.text))
    let base : OpportunityScore :=
      { category := category
        location := location
        total_businesses := total_businesses
        total_reviews := total_reviews
        avg_reviews_per_business :=
          (total_reviews : ℚ) / ((max total_businesses 1 : ℤ) : ℚ)
        avg_rating := avg_rating
        low_rated_businesses :=
          (businesses.countP (fun b =>
            ratingTruthy b.rating &&
              (match b.rating with
               | some r => decide (r < 4)
               | none => false) ) : ℤ)
        businesses_without_website :=
          (businesses.countP (fun b => websiteFalsy b.website) : ℤ)
        common_complaints := getTopComplaints all_complaints 10
        complaint_themes := categorizeComplaints all_complaints }
    .ok { base with opportunity_score := calculateScore base }

/-! ## Collector (src/scraper/maps_scraper.py) -/

/-- `GoogleMapsScraper._get_demo_reviews`. -/
def getDemoReviews (negative : Bool) : List Review :=
  if negative then
    [{ rating := 1, text := "Terrible service! They never showed up on time and the work was sloppy." },
     { rating := 2, text := "Overpriced and unprofessional. Would not recommend." },
     { rating := 2, text := "Communication was awful. Had to call multiple times to get updates." },
     { rating := 3, text := "Average work, but too expensive for what you get." },
     { rating := 1, text := "They damaged my property and refused to take responsibility." }]
  else
    [{ rating := 5, text := "Excellent service! Professional and on time." },
     { rating := 4, text := "Good work, fair prices. Would use again." },
     { rating := 5, text := "Best in the area. Highly recommend!" },
     { rating := 4, text := "Quality work, though scheduling took a while." },
     { rating := 5, text := "Transformed my space. Very happy with the results." }]

/-- City part of the demo fixtures: `location.split(",")[0]`. -/
def demoCity (location : String) : String := (pySplitOn location ",").headD ""

/-- State part of the demo fixtures:
`location.split(",")[1].strip() if "," in location else "NC"`. -/
def demoState (location : String) : String :=
  if (pySplitOn location ",").length ≥ 2 then
    pyStrip ((pySplitOn location ",").getD 1 "")
  else "NC"

/-- `GoogleMapsScraper._get_demo_data`: the five fixed demo businesses.
`now` is the `datetime.now()` reading used for the `scraped_at` default. -/
def getDemoData (query location now : String) : List Business :=
  [{ name := "Pro " ++ pyTitle query ++ " Services"
     place_id := "demo_1", category := query
     address := "123 Main St", city := demoCity location, state := demoState location
     phone := some "(555) 123-4567", website := some "https://example.com"
     rating := some 4.2, review_count := 47
     reviews := getDemoReviews false, scraped_at := now },
   { name := "Budget " ++ pyTitle query ++ " Co"
     place_id := "demo_2", category := query
     address := "456 Oak Ave", city := demoCity location, state := demoState location
     phone := some "(555) 234-5678"
     rating := some 3.1, review_count := 23
     reviews := getDemoReviews true, scraped_at := now },
   { name := "Elite " ++ pyTitle query
     place_id := "demo_3", category := query
     address := "789 Pine Rd", city := demoCity location, state := demoState location
     phone := some "(555) 345-6789", website := some "https://elite-example.com"
     rating := some 4.8, review_count := 156
     reviews := getDemoReviews false, scraped_at := now },
   { name := "Local " ++ pyTitle query ++ " Experts"
     place_id := "demo_4", category := query
     address := "321 Elm St", city := demoCity location, state := demoState location
     rating := some 2.9, review_count := 12
     reviews := getDemoReviews true, scraped_at := now },
   { name := "Family " ++ pyTitle query ++ " Service"
     place_id := "demo_5", category := query
     address := "654 Maple Dr", city := demoCity location, state := demoState location
     phone := some "(555) 456-7890"
     rating := some 4.5, review_count := 89
     reviews := getDemoReviews false, scraped_at := now }]

/-- One raw SerpAPI `local_results` entry, with the optional fields
`_parse_result` reads. -/
structure RawResult where
  title : Option String := none
  place_id : Option String := none
  type_field : Option String := none
  address : Option String := none
  gps_latitude : Option ℚ := none
  gps_longitude : Option ℚ := none
  phone : Option String := none
  website : Option String := none
  rating : Option ℚ := none
  reviews : Option ℤ := none
deriving DecidableEq

/-- Stand-in for `hashlib.md5(name.encode()).hexdigest()`: the hash itself is
abstracted; the source only uses it as an opaque synthetic identifier and no
claim depends on its value. -/
def md5Hex (s : String) : String := "md5:" ++ s

/-- `GoogleMapsScraper._parse_location`: split a free-text address on commas,
falling back to the caller-supplied location's components. -/
def parseLocationParts (address default_location : String) : String × String :=
  let parts := pySplitOn default_location ","
  let default_city := pyStrip (parts.headD "")
  let default_state := if parts.length > 1 then pyStrip (parts.getD 1 "") else "Unknown"
  let addr_parts := pySplitOn address ","
  if addr_parts.length ≥ 2 then
    let city := pyStrip (addr_parts.getD (addr_parts.length - 2) "")
    let state_zip := pyWords (pyStrip (addr_parts.getD (addr_parts.length - 1) ""))
    let state := match state_zip.head? with
      | some st => st
      | none => default_state
    (city, state)
  else
    (default_city, default_state)

/-- `GoogleMapsScraper._parse_result`. The `try/except` guard of the source
is unreachable in this typed embedding, so the parse always succeeds. -/
def parseResult (result : RawResult) (location now : String) : Option Business :=
  let address := result.address.getD ""
  let cs := parseLocationParts address location
  some
    { name := result.title.getD "Unknown"
      place_id := result.place_id.getD (md5Hex (result.title.getD ""))
      category := result.type_field.getD "Unknown"
      address := address
      city := cs.1
      state := cs.2
      latitude := result.gps_latitude
      longitude := result.gps_longitude
      phone := result.phone
      website := result.website
      rating := result.rating
      review_count := result.reviews.getD 0
      scraped_at := now }

/-- One network response of the paginated search: `none` models a transport
failure (`requests.RequestException`), `some page` the `local_results` list. -/
abbrev SearchPage := Option (List RawResult)

/-- The `while len(businesses) < max_results` pagination loop of
`GoogleMapsScraper.search`: a transport failure or an empty page stops the
loop, a short page (< 20 results) stops it after appending, otherwise the
next page is fetched. An exhausted response stream is treated as a
transport failure. -/
def searchLoop (max_results : ℕ) (location now : String) :
    List SearchPage → List Business → List Business
  | [], acc => acc
  | page :: rest, acc =>
    if acc.length < max_results then
      match page with
      | none => acc
      | some local_results =>
        if local_results.isEmpty then acc
        else
          let acc2 := acc ++ local_results.filterMap
            (fun r => parseResult r location now)
          if local_results.length < 20 then acc2
          else searchLoop max_results location now rest acc2
    else acc

/-- The scraper's in-process `results_cache`, keyed by `f"{query}:{location}"`. -/
def lookupCache (cache : List (String × List Business)) (key : String) :
    Option (List Business) :=
  (cache.find? (fun p => p.1 = key)).map (fun p => p.2)

/-- `GoogleMapsScraper.search`: cache hit returns the cached list; with no
API key the demo fixtures are returned; otherwise the pagination loop runs
over the network responses `pages` and the result is `businesses[:max_results]`
(the write of that capped list back into the cache is a state update no
claim reads, so only the returned value is modelled). -/
def search (apiKey : Option String) (cache : List (String × List Business))
    (pages : List SearchPage) (query location : String) (max_results : ℕ)
    (now : String) : List Business :=
  match lookupCache cache (query ++ ":" ++ location) with
  | some cached => cached
  | none =>
    match apiKey with
    | none => getDemoData query location now
    | some _ => (searchLoop max_results location now pages []).take max_results

/-! ## Scrape-file round trip (save_results / load_data) -/

/-- One review dict inside the scrape file, as produced by `asdict`. -/
structure SavedReview where
  rating : ℤ
  text : String
  date : Option String
  author : Option String
deriving DecidableEq

/-- One business dict inside the scrape file, as produced by `asdict`. -/
structure SavedBusiness where
  name : String
  place_id : String
  category : String
  address : String
  city : String
  state : String
  zip_code : Option String
  latitude : Option ℚ
  longitude : Option ℚ
  phone : Option String
  website : Option String
  rating : Option ℚ
  review_count : ℤ
  reviews : List SavedReview
  scraped_at : String
deriving DecidableEq

/-- The scrape-file document `{scraped_at, count, businesses}`. -/
structure ScrapeFile where
  scraped_at : String
  count : ℕ
  businesses : List SavedBusiness
deriving DecidableEq

/-- `asdict` on a `Review`. -/
def reviewToSaved (r : Review) : SavedReview :=
  { rating := r.rating, text := r.text, date := r.date, author := r.author }

/-- `asdict` on a `Business`. -/
def businessToSaved (b : Business) : SavedBusiness :=
  { name := b.name, place_id := b.place_id, category := b.category
    address := b.address, city := b.city, state := b.state
    zip_code := b.zip_code, latitude := b.latitude, longitude := b.longitude
    phone := b.phone, website := b.website, rating := b.rating
    review_count := b.review_count
    reviews := b.reviews.map reviewToSaved, scraped_at := b.scraped_at }

/-- `GoogleMapsScraper.save_results`: the serialized document. -/
def saveResults (businesses : List Business) (now : String) : ScrapeFile :=
  { scraped_at := now
    count := businesses.length
    businesses := businesses.map businessToSaved }

/-- The review reconstruction inside `OpportunityAnalyzer.load_data`: only
`rating`, `text` and `author` are read back; the date is dropped. -/
def loadReview (r : SavedReview) : Review :=
  { rating := r.rating, text := r.text, date := none, author := r.author }

/-- The business reconstruction inside `OpportunityAnalyzer.load_data`
(`Business(**biz_data)` after replacing the reviews list). -/
def loadBusiness (sb : SavedBusiness) : Business :=
  { name := sb.name, place_id := sb.place_id, category := sb.category
    address := sb.address, city := sb.city, state := sb.state
    zip_code := sb.zip_code, latitude := sb.latitude, longitude := sb.longitude
    phone := sb.phone, website := sb.website, rating := sb.rating
    review_count := sb.review_count
    reviews := sb.reviews.map loadReview, scraped_at := sb.scraped_at }

/-- `OpportunityAnalyzer.load_data` over a scrape file. -/
def loadData (f : ScrapeFile) : List Business :=
  f.businesses.map loadBusiness

/-! ## Content planner (src/content/newsletter_generator.py) -/

/-- `ContentGenerator._generate_tagline`: membership checks on the whole
`complaint_themes` list in the fixed order pricing, reliability, quality,
else `taglines[0]`. -/
def generateTagline (s : OpportunityScore) : String :=
  let niche := pyTitle s.category
  let location := (pySplitOn s.location ",").headD ""
  if s.complaint_themes.contains "pricing" then
    "Save Money on " ++ niche ++ " in " ++ location
  else if s.complaint_themes.contains "reliability" then
    "Find Reliable " ++ niche ++ " in " ++ location
  else if s.complaint_themes.contains "quality" then
    "Quality " ++ niche ++ " in " ++ location ++ " - The Insider Guide"
  else
    "The " ++ location ++ " " ++ niche ++ " Insider"

/-! ## Exporter (src/api/lead_export.py) -/

/-- A business row as read back from the record store for export (the
columns `export_outreach_list` reads). -/
structure LeadRecord where
  name : String := ""
  phone : Option String := none
  website : Option String := none
  city : String := ""
  state : String := ""
  rating : Option ℚ := none
  review_count : ℤ := 0
deriving DecidableEq

/-- The first enrichment rule of `export_outreach_list`:
`biz.get("rating") and biz["rating"] < 4.0` (Python truthiness: a missing or
zero rating never fires). -/
def ratingRuleCode (rating : Option ℚ) : Bool :=
  ratingTruthy rating &&
    (match rating with
     | some r => decide (r < 4)
     | none => false)

/-- `export_outreach_list` enrichment: the three rules in source order,
joined by "; ", defaulting to "Standard outreach". -/
def opportunityNotes (r : LeadRecord) : String :=
  let notes : List String :=
    (if ratingRuleCode r.rating then ["Below avg rating - may want help"] else [])
      ++ (if websiteFalsy r.website then
            ["No website - digital marketing opportunity"] else [])
      ++ (if r.review_count < 20 then
            ["Low review count - reputation management"] else [])
  if notes.isEmpty then "Standard outreach" else String.intercalate "; " notes

/-- The three rules as the spec sentence words them — "rating < 4.0, missing
website, review_count < 20" — for comparison with `opportunityNotes`. -/
def specOpportunityNotes (r : LeadRecord) : String :=
  let notes : List String :=
    (if (match r.rating with
         | some x => decide (x < 4)
         | none => false) then ["Below avg rating - may want help"] else [])
      ++ (if r.website = none then
            ["No website - digital marketing opportunity"] else [])
      ++ (if r.review_count < 20 then
            ["Low review count - reputation management"] else [])
  if notes.isEmpty then "Standard outreach" else String.intercalate "; " notes

/-- The three rules as amended: rating present, non-zero and below 4.0;
website absent or empty; review count below 20. -/
def amendedOpportunityNotes (r : LeadRecord) : String :=
  let notes : List String :=
    (if (match r.rating with
         | some x => decide (x ≠ 0) && decide (x < 4)
         | none => false) then ["Below avg rating - may want help"] else [])
      ++ (if (r.website = none ∨ r.website = some "") then
            ["No website - digital marketing opportunity"] else [])
      ++ (if r.review_count < 20 then
            ["Low review count - reputation management"] else [])
  if notes.isEmpty then "Standard outreach" else String.intercalate "; " notes

/-- Mask the fields the claim C2 says may vary (name, category). -/
def maskNameCategory (b : Business) : Business :=
  { b with name := "", category := "" }

/-- Mask every field of a demo business that actually varies with the query
and location text (name, category, city, state). -/
def maskVariable (b : Business) : Business :=
  { b with name := "", category := "", city := "", state := "" }

/-! ## Concrete fixtures used by witnesses and counterexamples -/

/-- A concrete business whose review count sits exactly on the disputed
market-size boundary. -/
def bizW : Business :=
  { name := "Acme Lawn Care", place_id := "p1", category := "lawn care"
    address := "1 A St, Austin, TX", city := "Austin", state := "TX"
    rating := some 4.5, review_count := 100 }

/-- Outreach record from the spec's first concrete example. -/
def exOutreachBad : LeadRecord :=
  { name := "A", rating := some 3.5, website := none, review_count := 5 }

/-- Outreach record from the spec's second concrete example. -/
def exOutreachGood : LeadRecord :=
  { name := "B", rating := some 4.8, website := some "https://x.com"
    review_count := 200 }

/-- Outreach record with a zero rating and an empty website string, where
Python truthiness and the spec's wording of the rules disagree. -/
def exOutreachZero : LeadRecord :=
  { name := "C", rating := some 0, website := some "", review_count := 100 }

/-- A score whose top-ranked complaint theme is not one of the three special
ones but whose list still contains "pricing" further down. -/
def cexTaglineScore : OpportunityScore :=
  { category := "roofing", location := "Austin, TX"
    complaint_themes := ["professionalism", "pricing"] }

/-- A score whose only complaint theme is "pricing". -/
def pricingScore : OpportunityScore :=
  { category := "roofing", location := "Austin, TX"
    complaint_themes := ["pricing"] }

/-! ## Bucket lemmas for the composite score -/

theorem marketSizePoints_mem (t : ℤ) :
    marketSizePoints t = 5 ∨ marketSizePoints t = 10 ∨ marketSizePoints t = 15
      ∨ marketSizePoints t = 20 ∨ marketSizePoints t = 25 := by
  unfold marketSizePoints; split_ifs <;> simp

theorem competitionPoints_mem (n : ℤ) :
    competitionPoints n = 5 ∨ competitionPoints n = 10 ∨ competitionPoints n = 15
      ∨ competitionPoints n = 20 ∨ competitionPoints n = 25 := by
  unfold competitionPoints; split_ifs <;> simp

theorem qualityPoints_mem (q : ℚ) :
    qualityPoints q = 5 ∨ qualityPoints q = 10 ∨ qualityPoints q = 15
      ∨ qualityPoints q = 20 ∨ qualityPoints q = 25 := by
  unfold qualityPoints; split_ifs <;> simp

theorem digitalPoints_mem (w n : ℤ) :
    digitalPoints w n = 5 ∨ digitalPoints w n = 10 ∨ digitalPoints w n = 15
      ∨ digitalPoints w n = 20 ∨ digitalPoints w n = 25 := by
  simp only [digitalPoints]; split_ifs <;> simp

/-- C10: every composite score lies in [20, 100]: each of the four point
buckets contributes at least 5 via its else-branch and at most 25, so values
0 through 19 are unreachable. -/
theorem calculateScore_ge_twenty (s : OpportunityScore) :
    20 ≤ calculateScore s ∧ calculateScore s ≤ 100 := by
  have h1 := marketSizePoints_mem s.total_reviews
  have h2 := competitionPoints_mem s.total_businesses
  have h3 := qualityPoints_mem s.avg_rating
  have h4 := digitalPoints_mem s.businesses_without_website s.total_businesses
  unfold calculateScore
  omega

/-- C5: `analyze` raises exactly on an empty loaded business list, and
returns an `OpportunityScore` on every non-empty list. -/
theorem analyze_fails_iff_empty (bs : List Business) (c l : String) :
    (bs = [] →
      analyze bs c l = .error "No businesses loaded. Call load_data() first.") ∧
    (bs ≠ [] → ∃ s, analyze bs c l = .ok s) := by
  constructor
  · rintro rfl; rfl
  · intro h
    have hne : bs.isEmpty = false := by
      cases bs with
      | nil => exact absurd rfl h
      | cons a t => rfl
    exact ⟨_, by rw [analyze, hne]; rfl⟩

/-- C5 witness: the empty list is rejected with the source's error text. -/
theorem analyze_fails_iff_empty_witness :
    analyze [] "lawn care" "Austin, TX" =
      .error "No businesses loaded. Call load_data() first." :=
  (analyze_fails_iff_empty [] "lawn care" "Austin, TX").1 rfl

/-- C1 counterexample: at the market-size threshold edge the code is strict
(`> 100`), so `total_reviews == 100` lands in the `> 50` branch worth 10, not
the 15 the claim asserts; witnessed end to end through `analyze` on a
single-business list carrying exactly 100 reviews. -/
theorem market_bucket_at_100_cex :
    marketSizePoints 100 = 10 ∧ ¬ marketSizePoints 100 = 15 ∧
    (analyze [bizW] "lawn care" "Austin, TX").map
      (fun s => marketSizePoints s.total_reviews) = Except.ok 10 := by
  exact ⟨by decide, by decide, rfl⟩

/-- C1 (amended): for every non-empty business list `analyze` succeeds and
the composite score is exactly the sum of the four bucket values, each in
{5,10,15,20,25} and the total in [0,100]; at the threshold edges
`total_reviews == 100` gives bucket 10, `== 101` gives 15, `== 501` gives 20. -/
theorem score_sum_of_buckets (bs : List Business) (c l : String) (h : bs ≠ []) :
    ∃ s, analyze bs c l = .ok s ∧
      s.opportunity_score =
        marketSizePoints s.total_reviews + competitionPoints s.total_businesses
          + qualityPoints s.avg_rating
          + digitalPoints s.businesses_without_website s.total_businesses ∧
      (marketSizePoints s.total_reviews = 5 ∨ marketSizePoints s.total_reviews = 10
        ∨ marketSizePoints s.total_reviews = 15 ∨ marketSizePoints s.total_reviews = 20
        ∨ marketSizePoints s.total_reviews = 25) ∧
      (competitionPoints s.total_businesses = 5 ∨ competitionPoints s.total_businesses = 10
        ∨ competitionPoints s.total_businesses = 15 ∨ competitionPoints s.total_businesses = 20
        ∨ competitionPoints s.total_businesses = 25) ∧
      (qualityPoints s.avg_rating = 5 ∨ qualityPoints s.avg_rating = 10
        ∨ qualityPoints s.avg_rating = 15 ∨ qualityPoints s.avg_rating = 20
        ∨ qualityPoints s.avg_rating = 25) ∧
      (digitalPoints s.businesses_without_website s.total_businesses = 5
        ∨ digitalPoints s.businesses_without_website s.total_businesses = 10
        ∨ digitalPoints s.businesses_without_website s.total_businesses = 15
        ∨ digitalPoints s.businesses_without_website s.total_businesses = 20
        ∨ digitalPoints s.businesses_without_website s.total_businesses = 25) ∧
      0 ≤ s.opportunity_score ∧ s.opportunity_score ≤ 100 ∧
      marketSizePoints 100 = 10 ∧ marketSizePoints 101 = 15 ∧
      marketSizePoints 501 = 20 := by
  obtain ⟨s, hs⟩ := (analyze_fails_iff_empty bs c l).2 h
  refine ⟨s, hs, ?_⟩
  have hscore : s.opportunity_score =
      marketSizePoints s.total_reviews + competitionPoints s.total_businesses
        + qualityPoints s.avg_rating
        + digitalPoints s.businesses_without_website s.total_businesses := by
    have hne : bs.isEmpty = false := by
      cases bs with
      | nil => exact absurd rfl h
      | cons a t => rfl
    rw [analyze, hne] at hs
    cases hs
    rfl
  have h1 := marketSizePoints_mem s.total_reviews
  have h2 := competitionPoints_mem s.total_businesses
  have h3 := qualityPoints_mem s.avg_rating
  have h4 := digitalPoints_mem s.businesses_without_website s.total_businesses
  refine ⟨hscore, h1, h2, h3, h4, by omega, by omega, by decide, by decide, by decide⟩

/-- C1 witness: the amended theorem applied to a concrete one-element list. -/
theorem score_sum_of_buckets_witness :
    ([bizW] : List Business) ≠ [] ∧
      ∃ s, analyze [bizW] "lawn care" "Austin, TX" = .ok s ∧
        0 ≤ s.opportunity_score ∧ s.opportunity_score ≤ 100 := by
  refine ⟨by simp, ?_⟩
  obtain ⟨s, hok, _, _, _, _, _, hlo, hhi, _, _, _⟩ :=
    score_sum_of_buckets [bizW] "lawn care" "Austin, TX" (by simp)
  exact ⟨s, hok, hlo, hhi⟩

/-- C9: serializing a business list to the scrape-file shape and reloading
it preserves length, `place_id`, `rating`, `review_count` and the review
texts in order (only review dates and the per-review defaults are touched by
the loader). -/
theorem scrape_roundtrip (bs : List Business) (now : String) :
    (loadData (saveResults bs now)).length = bs.length ∧
    (loadData (saveResults bs now)).map (fun b => b.place_id) =
      bs.map (fun b => b.place_id) ∧
    (loadData (saveResults bs now)).map (fun b => b.rating) =
      bs.map (fun b => b.rating) ∧
    (loadData (saveResults bs now)).map (fun b => b.review_count) =
      bs.map (fun b => b.review_count) ∧
    (loadData (saveResults bs now)).map (fun b => b.reviews.map (fun r => r.text)) =
      bs.map (fun b => b.reviews.map (fun r => r.text)) := by
  simp [loadData, saveResults, List.map_map, Function.comp_def,
    loadBusiness, businessToSaved, loadReview, reviewToSaved]

/-- C6 counterexample: on a record with a zero rating and an empty website
string the enrichment disagrees with the claim's reading of the three rules:
Python truthiness suppresses the rating note and fires the website note. -/
theorem outreach_notes_cex :
    opportunityNotes exOutreachZero ≠ specOpportunityNotes exOutreachZero ∧
    opportunityNotes exOutreachZero = "No website - digital marketing opportunity" ∧
    specOpportunityNotes exOutreachZero = "Below avg rating - may want help" := by
  exact ⟨by decide, rfl, rfl⟩

/-- C6 (amended): the outreach notes are built from the three truthiness
rules — rating present, non-zero and < 4.0; website absent or empty; review
count < 20 — joined by "; " with the "Standard outreach" default, and the
spec's two concrete examples behave as stated. -/
theorem outreach_notes_amended :
    (∀ r : LeadRecord, opportunityNotes r = amendedOpportunityNotes r) ∧
    opportunityNotes exOutreachBad =
      "Below avg rating - may want help; No website - digital marketing opportunity; Low review count - reputation management" ∧
    opportunityNotes exOutreachGood = "Standard outreach" := by
  have hbad : ratingRuleCode (some (3.5 : ℚ)) = true := by
    simp [ratingRuleCode, ratingTruthy]
    norm_num
  have hgood : ratingRuleCode (some (4.8 : ℚ)) = false := by
    simp [ratingRuleCode, ratingTruthy]
    norm_num
  refine ⟨?_, ?_, ?_⟩
  case refine_2 =>
    simp [opportunityNotes, exOutreachBad, hbad, websiteFalsy]
    rfl
  case refine_3 =>
    simp [opportunityNotes, exOutreachGood, hgood, websiteFalsy]
  intro r
  unfold opportunityNotes amendedOpportunityNotes ratingRuleCode ratingTruthy websiteFalsy
  cases hr : r.rating <;> cases hw : r.website <;> simp_all

/-- C4 counterexample: with top-ranked theme "professionalism" and "pricing"
further down the list the claim predicts the default tagline, but the code
checks membership in the whole list and returns the pricing tagline. -/
theorem tagline_membership_cex :
    generateTagline cexTaglineScore = "Save Money on Roofing in Austin" ∧
    generateTagline cexTaglineScore ≠ "The Austin Roofing Insider" := by
  exact ⟨by decide, by decide⟩

/-- C4 (amended): tagline selection tests membership of "pricing",
"reliability" and "quality" anywhere in `complaint_themes`, in that fixed
priority order, falling back to the default tagline only when none of the
three appears. -/
theorem tagline_membership (s : OpportunityScore) :
    ("pricing" ∈ s.complaint_themes →
      generateTagline s = "Save Money on " ++ pyTitle s.category ++ " in "
        ++ (pySplitOn s.location ",").headD "") ∧
    ("pricing" ∉ s.complaint_themes →
      "reliability" ∈ s.complaint_themes →
      generateTagline s = "Find Reliable " ++ pyTitle s.category ++ " in "
        ++ (pySplitOn s.location ",").headD "") ∧
    ("pricing" ∉ s.complaint_themes →
      "reliability" ∉ s.complaint_themes →
      "quality" ∈ s.complaint_themes →
      generateTagline s = "Quality " ++ pyTitle s.category ++ " in "
        ++ (pySplitOn s.location ",").headD "" ++ " - The Insider Guide") ∧
    ("pricing" ∉ s.complaint_themes →
      "reliability" ∉ s.complaint_themes →
      "quality" ∉ s.complaint_themes →
      generateTagline s = "The " ++ (pySplitOn s.location ",").headD "" ++ " "
        ++ pyTitle s.category ++ " Insider") := by
  refine ⟨fun h1 => by simp [generateTagline, h1],
          fun h1 h2 => by simp [generateTagline, h1, h2],
          fun h1 h2 h3 => by simp [generateTagline, h1, h2, h3],
          fun h1 h2 h3 => by simp [generateTagline, h1, h2, h3]⟩

/-- C4 witness: a score whose theme list is exactly ["pricing"] receives the
pricing tagline. -/
theorem tagline_membership_witness :
    generateTagline pricingScore = "Save Money on Roofing in Austin" :=
  ((tagline_membership pricingScore).1 (by decide)).trans (by decide)


/-- C2 counterexample: two searches differing only in the location text
produce demo fixtures that still differ after masking name and category,
because the city (and state) fields are derived from the location string. -/
theorem demo_fixture_cex :
    (getDemoData "plumbing" "Austin, TX" "t0").map maskNameCategory ≠
      (getDemoData "plumbing" "Boise, ID" "t0").map maskNameCategory ∧
    ((getDemoData "plumbing" "Austin, TX" "t0").map
        (fun b => b.city)).headD "" = "Austin" ∧
    ((getDemoData "plumbing" "Boise, ID" "t0").map
        (fun b => b.city)).headD "" = "Boise" := by
  refine ⟨?_, by decide, by decide⟩
  intro h
  have hc := congrArg (fun l => (l.map (fun b => Business.city b)).headD "") h
  simp only [List.map_map] at hc
  have : ("Austin" : String) = "Boise" := by
    revert hc
    decide
  exact absurd this (by decide)

/-- C2 (amended): with no API key and a cache miss, `search` returns the
five demo fixtures with place ids demo_1..demo_5 in order, and the result is
independent of the query and location text except for the name, category,
city and state fields. -/
theorem demo_fixture_deterministic (q l q2 l2 t : String)
    (cache : List (String × List Business)) (pages : List SearchPage)
    (maxr : ℕ) (h : lookupCache cache (q ++ ":" ++ l) = none) :
    search none cache pages q l maxr t = getDemoData q l t ∧
    (getDemoData q l t).length = 5 ∧
    (getDemoData q l t).map (fun b => b.place_id) =
      ["demo_1", "demo_2", "demo_3", "demo_4", "demo_5"] ∧
    (getDemoData q l t).map maskVariable =
      (getDemoData q2 l2 t).map maskVariable := by
  refine ⟨?_, rfl, rfl, rfl⟩
  unfold search
  rw [h]

/-- C2 witness: the demo path taken concretely from an empty cache. -/
theorem demo_fixture_deterministic_witness :
    search none [] [] "plumbing" "Austin, TX" 20 "t0" =
      getDemoData "plumbing" "Austin, TX" "t0" :=
  (demo_fixture_deterministic "plumbing" "Austin, TX" "x" "y" "t0"
    [] [] 20 rfl).1

/-- C3 counterexample: the `max_results` cap is bypassed on two reachable
paths — in demo mode a search asking for at most 3 results returns all 5
demo businesses, and in live mode (API key configured) a search asking for
at most 3 results returns a previously cached 5-element list as-is. -/
theorem search_cap_cex :
    (search none [] [] "plumbing" "Austin, TX" 3 "t0").length = 5 ∧
    ¬ (search none [] [] "plumbing" "Austin, TX" 3 "t0").length ≤ 3 ∧
    (search (some "KEY")
        [("plumbing:Austin, TX", getDemoData "plumbing" "Austin, TX" "t0")]
        [] "plumbing" "Austin, TX" 3 "t0").length = 5 ∧
    ¬ (search (some "KEY")
        [("plumbing:Austin, TX", getDemoData "plumbing" "Austin, TX" "t0")]
        [] "plumbing" "Austin, TX" 3 "t0").length ≤ 3 := by
  exact ⟨rfl, by decide, rfl, by decide⟩

/-- C3 (amended): with an API key configured and a cache miss the search
result is truncated to at most `max_results`; without an API key the demo
fixture list of exactly 5 businesses is returned regardless of
`max_results`, so the cap only holds there when `max_results ≥ 5`; and a
cache hit returns the previously cached list as-is (uncapped), with or
without an API key. -/
theorem search_capped_live (k : String) (cache : List (String × List Business))
    (pages : List SearchPage) (q l : String) (maxr : ℕ) (t : String) :
    (lookupCache cache (q ++ ":" ++ l) = none →
      (search (some k) cache pages q l maxr t).length ≤ maxr) ∧
    (lookupCache cache (q ++ ":" ++ l) = none →
      search none cache pages q l maxr t = getDemoData q l t ∧
      (getDemoData q l t).length = 5) ∧
    (∀ cached, lookupCache cache (q ++ ":" ++ l) = some cached →
      search (some k) cache pages q l maxr t = cached ∧
      search none cache pages q l maxr t = cached) := by
  refine ⟨fun h => ?_, fun h => ⟨?_, rfl⟩, fun cached hc => ⟨?_, ?_⟩⟩
  · unfold search
    rw [h]
    simp [List.length_take_le]
  · unfold search
    rw [h]
  · unfold search
    rw [hc]
  · unfold search
    rw [hc]

/-- C3 witness: the live path applied to a concrete cache miss, and the
cache-hit path applied to a concrete warm cache. -/
theorem search_capped_live_witness :
    (search (some "KEY") [] [] "plumbing" "Austin, TX" 7 "t0").length ≤ 7 ∧
    search (some "KEY")
        [("plumbing:Austin, TX", getDemoData "plumbing" "Austin, TX" "t0")]
        [] "plumbing" "Austin, TX" 3 "t0" =
      getDemoData "plumbing" "Austin, TX" "t0" :=
  ⟨(search_capped_live "KEY" [] [] "plumbing" "Austin, TX" 7 "t0").1 rfl,
   ((search_capped_live "KEY"
      [("plumbing:Austin, TX", getDemoData "plumbing" "Austin, TX" "t0")]
      [] "plumbing" "Austin, TX" 3 "t0").2.2
      (getDemoData "plumbing" "Austin, TX" "t0") rfl).1⟩

/-! ## Jaccard-threshold lemmas and the deduplication invariant -/

theorem overlapQ_gt_half_iff (c e : String) :
    (1 : ℚ)/2 < overlapQ c e ↔
      max ((wordSet c ∪ wordSet e).card) 1 <
        2 * (wordSet c ∩ wordSet e).card := by
  unfold overlapQ
  have hpos : (0 : ℚ) < ((max (wordSet c ∪ wordSet e).card 1 : ℕ) : ℚ) := by
    exact_mod_cast Nat.lt_of_lt_of_le Nat.zero_lt_one (le_max_right _ 1)
  rw [div_lt_div_iff₀ (by norm_num) hpos, one_mul]
  rw [show ((wordSet c ∩ wordSet e).card : ℚ) * 2 =
      ((2 * (wordSet c ∩ wordSet e).card : ℕ) : ℚ) by push_cast; ring]
  exact Nat.cast_lt

theorem overlapQ_le_half_iff (c e : String) :
    overlapQ c e ≤ 1/2 ↔
      2 * (wordSet c ∩ wordSet e).card ≤
        max ((wordSet c ∪ wordSet e).card) 1 := by
  have h := not_congr (overlapQ_gt_half_iff c e)
  rw [not_lt, not_lt] at h
  exact h

theorem dedupStep_eq_nat : dedupStep = dedupStepNat := by
  funext u c
  have hfun : (fun existing => decide ((1 : ℚ)/2 < overlapQ c existing))
      = (fun existing => decide (max ((wordSet c ∪ wordSet existing).card) 1 <
          2 * (wordSet c ∩ wordSet existing).card)) := by
    funext e
    exact decide_eq_decide.mpr (overlapQ_gt_half_iff c e)
  unfold dedupStep dedupStepNat
  rw [hfun]

theorem getTopComplaints_eval (l : List String) (limit : ℕ) :
    getTopComplaints l limit = (l.foldl dedupStepNat []).take limit := by
  unfold getTopComplaints
  rw [dedupStep_eq_nat]

theorem dedupStep_pairwise (u : List String) (c : String)
    (hu : u.Pairwise (fun a b => overlapQ b a ≤ 1/2)) :
    (dedupStep u c).Pairwise (fun a b => overlapQ b a ≤ 1/2) := by
  unfold dedupStep
  split
  · exact hu
  · rename_i h
    rw [List.pairwise_append]
    refine ⟨hu, List.pairwise_singleton _ _, ?_⟩
    intro a ha b hb
    rw [List.mem_singleton] at hb
    subst hb
    simp only [List.any_eq_true, decide_eq_true_eq, not_exists, not_and] at h
    exact le_of_not_lt (fun hlt => h a ha hlt)

theorem foldl_dedupStep_pairwise (l : List String) :
    ∀ u, u.Pairwise (fun a b => overlapQ b a ≤ 1/2) →
      (l.foldl dedupStep u).Pairwise (fun a b => overlapQ b a ≤ 1/2) := by
  induction l with
  | nil => intro u hu; simpa using hu
  | cons c rest ih =>
    intro u hu
    rw [List.foldl_cons]
    exact ih _ (dedupStep_pairwise u c hu)

theorem dedupStep_of_le (u : List String) (c : String)
    (h : ∀ e ∈ u, overlapQ c e ≤ 1/2) : dedupStep u c = u ++ [c] := by
  unfold dedupStep
  have hany : u.any (fun e => decide ((1 : ℚ)/2 < overlapQ c e)) = false := by
    rw [List.any_eq_false]
    intro x hx
    simpa using not_lt.mpr (h x hx)
  rw [hany]
  simp

theorem foldl_dedupStep_append (l : List String) :
    ∀ u, (∀ c ∈ l, ∀ e ∈ u, overlapQ c e ≤ 1/2) →
      l.Pairwise (fun a b => overlapQ b a ≤ 1/2) →
      l.foldl dedupStep u = u ++ l := by
  induction l with
  | nil => intro u _ _; simp
  | cons c rest ih =>
    intro u hcu hp
    rw [List.pairwise_cons] at hp
    rw [List.foldl_cons, dedupStep_of_le u c (hcu c (List.mem_cons_self c rest))]
    rw [ih (u ++ [c]) ?_ hp.2]
    · simp
    · intro c2 hc2 e he
      rcases List.mem_append.mp he with h1 | h1
      · exact hcu c2 (List.mem_cons_of_mem _ hc2) e h1
      · rw [List.mem_singleton] at h1
        subst h1
        exact hp.1 c2 hc2

theorem overlapQ_eq_one (a b : String) (h : wordSet a = wordSet b)
    (hne : wordSet a ≠ ∅) : overlapQ b a = 1 := by
  unfold overlapQ
  rw [← h, Finset.inter_self, Finset.union_self]
  have hc : 1 ≤ (wordSet a).card :=
    Finset.card_pos.mpr (Finset.nonempty_iff_ne_empty.mpr hne)
  rw [max_eq_left hc]
  refine div_self ?_
  have : (wordSet a).card ≠ 0 := by omega
  exact_mod_cast this

/-- C7 counterexample: two complaints with identical (empty) lower-cased
word sets — whitespace-only strings — are NOT deduplicated: the guarded
overlap computes 0, not 1.0, so the second survives. -/
theorem dedup_identical_cex :
    getTopComplaints ["", ""] 10 = ["", ""] ∧
    getTopComplaints ["", ""] 10 ≠ [""] ∧
    overlapQ "" "" = 0 := by
  refine ⟨?_, ?_, ?_⟩
  · rw [getTopComplaints_eval]
    decide
  · rw [getTopComplaints_eval]
    decide
  · have hws : wordSet "" = ∅ := by decide
    simp [overlapQ, hws]

/-- C7 (amended): survivors of the deduplication are pairwise at most 0.5
in word-set overlap; two complaints with identical non-empty word sets have
overlap exactly 1.0 > 0.5, so at most one of them survives (the survivor
need not be the first of the pair if an earlier kept complaint already
overlapped it, and whitespace-only duplicates — empty word sets — are all
kept). -/
theorem dedup_drops_identical (l : List String) (limit : ℕ) :
    ((getTopComplaints l limit).Pairwise (fun a b => overlapQ b a ≤ 1/2)) ∧
    (∀ a b : String, wordSet a = wordSet b → wordSet a ≠ ∅ →
      overlapQ b a = 1) ∧
    ((getTopComplaints l limit).Pairwise
      (fun a b => wordSet a = wordSet b → wordSet a = ∅)) := by
  have hp : (l.foldl dedupStep []).Pairwise (fun a b => overlapQ b a ≤ 1/2) :=
    foldl_dedupStep_pairwise l [] List.Pairwise.nil
  have h1 : (getTopComplaints l limit).Pairwise
      (fun a b => overlapQ b a ≤ 1/2) :=
    hp.sublist (List.take_sublist _ _)
  refine ⟨h1, fun a b => overlapQ_eq_one a b, ?_⟩
  refine h1.imp ?_
  intro a b hle heq
  by_contra hne
  rw [overlapQ_eq_one a b heq hne] at hle
  norm_num at hle

/-- C7 witness: the overlap of two spellings of the same word set is 1. -/
theorem dedup_drops_identical_witness : overlapQ "Late" "late" = 1 :=
  (dedup_drops_identical [] 0).2.1 "late" "Late" (by decide) (by decide)

/-- C8: on a complaint list with no near-duplicate pair (every ordered pair
has Jaccard overlap at most 0.5) the deduplication is idempotent. -/
theorem dedup_idempotent (l : List String) (limit : ℕ)
    (h : l.Pairwise (fun a b => overlapQ b a ≤ 1/2)) :
    getTopComplaints (getTopComplaints l limit) limit =
      getTopComplaints l limit := by
  have h1 : l.foldl dedupStep [] = l := by
    simpa using foldl_dedupStep_append l [] (by simp) h
  have hgt : getTopComplaints l limit = l.take limit := by
    unfold getTopComplaints
    rw [h1]
  have h2 : (l.take limit).Pairwise (fun a b => overlapQ b a ≤ 1/2) :=
    h.sublist (List.take_sublist _ _)
  have h3 : (l.take limit).foldl dedupStep [] = l.take limit := by
    simpa using foldl_dedupStep_append (l.take limit) [] (by simp) h2
  rw [hgt]
  unfold getTopComplaints
  rw [h3, List.take_take, min_self]

/-- C8 witness: idempotence on a concrete list of two unrelated complaints. -/
theorem dedup_idempotent_witness :
    getTopComplaints (getTopComplaints ["late arrival", "rude staff"] 10) 10 =
      getTopComplaints ["late arrival", "rude staff"] 10 :=
  dedup_idempotent ["late arrival", "rude staff"] 10 (by
    rw [List.pairwise_cons]
    refine ⟨?_, List.pairwise_singleton _ _⟩
    intro b hb
    rw [List.mem_singleton] at hb
    subst hb
    rw [overlapQ_le_half_iff]
    decide)
